import Mathlib

/-!
Verification of the 2D rigid-body scene node (`src/scene/dim2/rigidbody.rs`)
against its natural-language specification.

The node stores `f32` scalars and `Vector2<f32>` components but never computes
on them: every operation in the file only stores, copies or clones such values.
They are therefore embedded with the opaque carrier `F32 := Rat`, which has the
decidable equality and order needed to state the claims (including negative
values for the mass claim); no floating-point arithmetic is modelled because
none occurs in the source.

Types that the source uses but that live outside this repository slice
(`TemplateVariable` from `scene/variable.rs`, the `Node` enum, `Base` and
`BaseBuilder` from `scene/base.rs`, `RigidBodyType` from `scene/rigidbody.rs`,
and rapier2d's `RigidBodyHandle`) are modelled from the spec; their doc
comments say so explicitly.
-/

/-- Opaque carrier for `f32` values: the source only stores and copies them,
never computes on them, so any type with decidable equality and order is a
faithful carrier. -/
abbrev F32 := Rat

/-- Embedding of `Vector2<f32>` (nalgebra): a pair of `f32` components, only
ever stored and copied by this source file. -/
structure Vector2 where
  x : F32
  y : F32
deriving DecidableEq, Repr

/-- Modelled from the spec: the body classification of a rigid body
("dynamic / static / kinematic"); `RigidBodyType` is declared in
`scene/rigidbody.rs`, which is outside the provided sources. -/
inductive RigidBodyType where
  | Dynamic
  | Static
  | Kinematic
deriving DecidableEq, Repr

/-- Modelled from the spec: the opaque backend handle (rapier2d
`RigidBodyHandle`, an external crate) with its "never allocated" invalid
sentinel; invalid until the node is registered with the simulation. -/
inductive RigidBodyHandle where
  | invalid
  | valid (index : Nat)
deriving DecidableEq, Repr

/-- Modelled from the spec: an Overridable Property (`TemplateVariable<T>`
from `scene/variable.rs`, outside the provided sources): a value cell with a
marker distinguishing "explicitly set on this instance" (`custom`) from
"mirroring a template/parent", plus a needs-sync marker that is false until
the property is touched. -/
structure TemplateVariable (T : Type) where
  value : T
  custom : Bool
  needSync : Bool
deriving DecidableEq, Repr

/-- Modelled from the spec: creation with a given value; a freshly built
property has not diverged from the last synchronization point, and (per the
testable properties) a freshly built node carries non-explicit properties. -/
def TemplateVariable.new {T : Type} (v : T) : TemplateVariable T :=
  { value := v, custom := false, needSync := false }

/-- Modelled from the spec: `set` replaces the current value and marks the
property as explicitly set; a property touched since the last synchronization
point reports needs-sync. -/
def TemplateVariable.set {T : Type} (_tv : TemplateVariable T) (v : T) :
    TemplateVariable T :=
  { value := v, custom := true, needSync := true }

/-- Modelled from the spec: dereference-style read of the current value. -/
def TemplateVariable.get {T : Type} (tv : TemplateVariable T) : T :=
  tv.value

/-- Modelled from the spec: if this instance is not explicitly set,
`try_inherit` copies the parent's value and keeps the non-explicit marker;
if already explicit, it is a no-op. -/
def TemplateVariable.try_inherit {T : Type} (tv parent : TemplateVariable T) :
    TemplateVariable T :=
  if tv.custom then tv
  else { value := parent.value, custom := false, needSync := tv.needSync }

/-- Modelled from the spec: `needs_sync` reports whether the property has been
touched since the last synchronization point. -/
def TemplateVariable.need_sync {T : Type} (tv : TemplateVariable T) : Bool :=
  tv.needSync

/-- Embedding of `ApplyAction` (the closed set of deferred physics commands),
directly from the source enum. -/
inductive ApplyAction where
  | Force (force : Vector2)
  | Torque (torque : F32)
  | ForceAtPoint (force : Vector2) (point : Vector2)
  | Impulse (impulse : Vector2)
  | TorqueImpulse (torqueImpulse : F32)
  | ImpulseAtPoint (impulse : Vector2) (point : Vector2)
  | WakeUp
deriving DecidableEq, Repr

/-- Modelled from the spec: base scene-graph fields are owned by the external
base entity (`scene/base.rs`, outside the provided sources) and out of scope;
represented as a placeholder record. -/
structure Base where
  unit : Unit
deriving DecidableEq, Repr

/-- Modelled from the spec: duplication primitive of the external base entity. -/
def Base.raw_copy (b : Base) : Base := b

/-- Modelled from the spec: the external base builder (`BaseBuilder`). -/
structure BaseBuilder where
  unit : Unit
deriving DecidableEq, Repr

/-- Modelled from the spec: `BaseBuilder::build_base` produces the base
scene-graph data. -/
def BaseBuilder.build_base (_b : BaseBuilder) : Base := ⟨()⟩

/-- Embedding of the `RigidBody` struct: base data, the ten overridable
properties, the sleeping flag, the backend handle cell (`Cell<RigidBodyHandle>`
embedded as its contents) and the deferred action queue
(`Mutex<VecDeque<ApplyAction>>` embedded as the list of queued actions in FIFO
order, head first). -/
structure RigidBody where
  base : Base
  lin_vel : TemplateVariable Vector2
  ang_vel : TemplateVariable F32
  lin_damping : TemplateVariable F32
  ang_damping : TemplateVariable F32
  body_type : TemplateVariable RigidBodyType
  mass : TemplateVariable F32
  rotation_locked : TemplateVariable Bool
  translation_locked : TemplateVariable Bool
  ccd_enabled : TemplateVariable Bool
  can_sleep : TemplateVariable Bool
  sleeping : Bool
  native : RigidBodyHandle
  actions : List ApplyAction
deriving DecidableEq, Repr

/-- Modelled from the spec: nodes of a kind other than `RigidBody2D`; the full
`Node` enum lives outside the provided sources, and `inherit` only
distinguishes the `RigidBody2D` variant from every other one. -/
inductive Node where
  | RigidBody2D (rb : RigidBody)
  | Other
deriving DecidableEq, Repr

/-- Modelled from the spec: base-level inheritance bookkeeping
(`Base::inherit_properties`) is owned by the external base entity. -/
def Base.inherit_properties (b : Base) (_parent : Node) : Base := b

/-- Embedding of `impl Default for RigidBody`: default base and properties,
`Dynamic` body type, mass `1.0`, `can_sleep` true, not sleeping, invalid
handle, empty queue. -/
def RigidBody.default : RigidBody where
  base := ⟨()⟩
  lin_vel := TemplateVariable.new ⟨0, 0⟩
  ang_vel := TemplateVariable.new 0
  lin_damping := TemplateVariable.new 0
  ang_damping := TemplateVariable.new 0
  body_type := TemplateVariable.new RigidBodyType.Dynamic
  mass := TemplateVariable.new 1
  rotation_locked := TemplateVariable.new false
  translation_locked := TemplateVariable.new false
  ccd_enabled := TemplateVariable.new false
  can_sleep := TemplateVariable.new true
  sleeping := false
  native := RigidBodyHandle.invalid
  actions := []

/-- Embedding of `RigidBody::raw_copy`: clones the base and every overridable
property, copies the sleeping flag, resets the handle cell to the invalid
sentinel and the action queue to empty. -/
def RigidBody.raw_copy (rb : RigidBody) : RigidBody where
  base := rb.base.raw_copy
  lin_vel := rb.lin_vel
  ang_vel := rb.ang_vel
  lin_damping := rb.lin_damping
  ang_damping := rb.ang_damping
  body_type := rb.body_type
  mass := rb.mass
  rotation_locked := rb.rotation_locked
  translation_locked := rb.translation_locked
  ccd_enabled := rb.ccd_enabled
  can_sleep := rb.can_sleep
  sleeping := rb.sleeping
  native := RigidBodyHandle.invalid
  actions := []

/-- Embedding of `RigidBody::set_lin_vel`. -/
def RigidBody.set_lin_vel (rb : RigidBody) (v : Vector2) : RigidBody :=
  { rb with lin_vel := rb.lin_vel.set v }

/-- Embedding of `RigidBody::lin_vel` (the getter; renamed to avoid clashing
with the field projection). -/
def RigidBody.lin_vel_get (rb : RigidBody) : Vector2 := rb.lin_vel.get

/-- Embedding of `RigidBody::set_ang_vel`. -/
def RigidBody.set_ang_vel (rb : RigidBody) (v : F32) : RigidBody :=
  { rb with ang_vel := rb.ang_vel.set v }

/-- Embedding of `RigidBody::ang_vel` (the getter). -/
def RigidBody.ang_vel_get (rb : RigidBody) : F32 := rb.ang_vel.get

/-- Embedding of `RigidBody::set_mass`. -/
def RigidBody.set_mass (rb : RigidBody) (m : F32) : RigidBody :=
  { rb with mass := rb.mass.set m }

/-- Embedding of `RigidBody::mass` (the getter). -/
def RigidBody.mass_get (rb : RigidBody) : F32 := rb.mass.get

/-- Embedding of the `#[inspect(min_value = 0.0, ...)]` attribute on the
`mass` field: editor-inspector metadata only, enforced nowhere in the code. -/
def mass_min_value : F32 := 0

/-- Embedding of `RigidBody::set_ang_damping`. -/
def RigidBody.set_ang_damping (rb : RigidBody) (d : F32) : RigidBody :=
  { rb with ang_damping := rb.ang_damping.set d }

/-- Embedding of `RigidBody::ang_damping` (the getter). -/
def RigidBody.ang_damping_get (rb : RigidBody) : F32 := rb.ang_damping.get

/-- Embedding of `RigidBody::set_lin_damping`. -/
def RigidBody.set_lin_damping (rb : RigidBody) (d : F32) : RigidBody :=
  { rb with lin_damping := rb.lin_damping.set d }

/-- Embedding of `RigidBody::lin_damping` (the getter). -/
def RigidBody.lin_damping_get (rb : RigidBody) : F32 := rb.lin_damping.get

/-- Embedding of `RigidBody::lock_rotations`. -/
def RigidBody.lock_rotations (rb : RigidBody) (state : Bool) : RigidBody :=
  { rb with rotation_locked := rb.rotation_locked.set state }

/-- Embedding of `RigidBody::is_rotation_locked`. -/
def RigidBody.is_rotation_locked (rb : RigidBody) : Bool :=
  rb.rotation_locked.get

/-- Embedding of `RigidBody::lock_translation`. -/
def RigidBody.lock_translation (rb : RigidBody) (state : Bool) : RigidBody :=
  { rb with translation_locked := rb.translation_locked.set state }

/-- Embedding of `RigidBody::is_translation_locked`. -/
def RigidBody.is_translation_locked (rb : RigidBody) : Bool :=
  rb.translation_locked.get

/-- Embedding of `RigidBody::set_body_type`. -/
def RigidBody.set_body_type (rb : RigidBody) (t : RigidBodyType) : RigidBody :=
  { rb with body_type := rb.body_type.set t }

/-- Embedding of `RigidBody::body_type` (the getter). -/
def RigidBody.body_type_get (rb : RigidBody) : RigidBodyType :=
  rb.body_type.get

/-- Embedding of `RigidBody::is_sleeping`. -/
def RigidBody.is_sleeping (rb : RigidBody) : Bool := rb.sleeping

/-- Embedding of `RigidBody::is_ccd_enabled`. -/
def RigidBody.is_ccd_enabled (rb : RigidBody) : Bool := rb.ccd_enabled.get

/-- Embedding of `RigidBody::enable_ccd`. -/
def RigidBody.enable_ccd (rb : RigidBody) (enable : Bool) : RigidBody :=
  { rb with ccd_enabled := rb.ccd_enabled.set enable }

/-- Embedding of `RigidBody::apply_force`: pushes a `Force` action onto the
tail of the queue. -/
def RigidBody.apply_force (rb : RigidBody) (force : Vector2) : RigidBody :=
  { rb with actions := rb.actions ++ [ApplyAction.Force force] }

/-- Embedding of `RigidBody::apply_torque`. -/
def RigidBody.apply_torque (rb : RigidBody) (torque : F32) : RigidBody :=
  { rb with actions := rb.actions ++ [ApplyAction.Torque torque] }

/-- Embedding of `RigidBody::apply_force_at_point`. -/
def RigidBody.apply_force_at_point (rb : RigidBody) (force point : Vector2) :
    RigidBody :=
  { rb with actions := rb.actions ++ [ApplyAction.ForceAtPoint force point] }

/-- Embedding of `RigidBody::apply_impulse`. -/
def RigidBody.apply_impulse (rb : RigidBody) (impulse : Vector2) : RigidBody :=
  { rb with actions := rb.actions ++ [ApplyAction.Impulse impulse] }

/-- Embedding of `RigidBody::apply_torque_impulse`. -/
def RigidBody.apply_torque_impulse (rb : RigidBody) (torqueImpulse : F32) :
    RigidBody :=
  { rb with actions := rb.actions ++ [ApplyAction.TorqueImpulse torqueImpulse] }

/-- Embedding of `RigidBody::apply_impulse_at_point`. -/
def RigidBody.apply_impulse_at_point (rb : RigidBody)
    (impulse point : Vector2) : RigidBody :=
  { rb with actions := rb.actions ++ [ApplyAction.ImpulseAtPoint impulse point] }

/-- Embedding of `RigidBody::set_can_sleep`: the source body only sets the
property — it does not enqueue anything, despite its own doc comment saying a
`false` argument automatically wakes the body up. -/
def RigidBody.set_can_sleep (rb : RigidBody) (canSleep : Bool) : RigidBody :=
  { rb with can_sleep := rb.can_sleep.set canSleep }

/-- Embedding of `RigidBody::is_can_sleep`. -/
def RigidBody.is_can_sleep (rb : RigidBody) : Bool := rb.can_sleep.get

/-- Embedding of `RigidBody::wake_up`: pushes a `WakeUp` action onto the tail
of the queue; the sleeping field itself is untouched. -/
def RigidBody.wake_up (rb : RigidBody) : RigidBody :=
  { rb with actions := rb.actions ++ [ApplyAction.WakeUp] }

/-- Embedding of `RigidBody::inherit`: base-level inheritance first, then, only
when the parent is a `RigidBody2D` node, `try_inherit` pairwise on all ten
overridable properties. -/
def RigidBody.inherit (rb : RigidBody) (parent : Node) : RigidBody :=
  let rb1 := { rb with base := rb.base.inherit_properties parent }
  match parent with
  | Node.RigidBody2D p =>
    { rb1 with
      lin_vel := rb1.lin_vel.try_inherit p.lin_vel
      ang_vel := rb1.ang_vel.try_inherit p.ang_vel
      lin_damping := rb1.lin_damping.try_inherit p.lin_damping
      ang_damping := rb1.ang_damping.try_inherit p.ang_damping
      body_type := rb1.body_type.try_inherit p.body_type
      mass := rb1.mass.try_inherit p.mass
      rotation_locked := rb1.rotation_locked.try_inherit p.rotation_locked
      translation_locked :=
        rb1.translation_locked.try_inherit p.translation_locked
      ccd_enabled := rb1.ccd_enabled.try_inherit p.ccd_enabled
      can_sleep := rb1.can_sleep.try_inherit p.can_sleep }
  | Node.Other => rb1

/-- Embedding of `RigidBody::need_sync_model`: disjunction of `need_sync` over
the ten overridable properties. -/
def RigidBody.need_sync_model (rb : RigidBody) : Bool :=
  rb.lin_vel.need_sync
    || rb.ang_vel.need_sync
    || rb.lin_damping.need_sync
    || rb.ang_damping.need_sync
    || rb.body_type.need_sync
    || rb.mass.need_sync
    || rb.rotation_locked.need_sync
    || rb.translation_locked.need_sync
    || rb.ccd_enabled.need_sync
    || rb.can_sleep.need_sync

/-- Embedding of the `RigidBodyBuilder` struct. -/
structure RigidBodyBuilder where
  base_builder : BaseBuilder
  lin_vel : Vector2
  ang_vel : F32
  lin_damping : F32
  ang_damping : F32
  sleeping : Bool
  body_type : RigidBodyType
  mass : F32
  rotation_locked : Bool
  translation_locked : Bool
  ccd_enabled : Bool
  can_sleep : Bool
deriving DecidableEq, Repr

/-- Embedding of `RigidBodyBuilder::new`: default values for every field. -/
def RigidBodyBuilder.new (bb : BaseBuilder) : RigidBodyBuilder where
  base_builder := bb
  lin_vel := ⟨0, 0⟩
  ang_vel := 0
  lin_damping := 0
  ang_damping := 0
  sleeping := false
  body_type := RigidBodyType.Dynamic
  mass := 1
  rotation_locked := false
  translation_locked := false
  ccd_enabled := false
  can_sleep := true

/-- Embedding of `RigidBodyBuilder::with_body_type`. -/
def RigidBodyBuilder.with_body_type (b : RigidBodyBuilder)
    (t : RigidBodyType) : RigidBodyBuilder :=
  { b with body_type := t }

/-- Embedding of `RigidBodyBuilder::with_mass`. -/
def RigidBodyBuilder.with_mass (b : RigidBodyBuilder) (m : F32) :
    RigidBodyBuilder :=
  { b with mass := m }

/-- Embedding of `RigidBodyBuilder::with_lin_vel`. -/
def RigidBodyBuilder.with_lin_vel (b : RigidBodyBuilder) (v : Vector2) :
    RigidBodyBuilder :=
  { b with lin_vel := v }

/-- Embedding of `RigidBodyBuilder::build_node`: constructs the rigid body
(each `.into()` wraps the builder value in a fresh, non-explicit overridable
property), with an invalid handle cell and an empty queue, and wraps it in a
`RigidBody2D` node. -/
def RigidBodyBuilder.build_node (b : RigidBodyBuilder) : Node :=
  Node.RigidBody2D
    { base := b.base_builder.build_base
      lin_vel := TemplateVariable.new b.lin_vel
      ang_vel := TemplateVariable.new b.ang_vel
      lin_damping := TemplateVariable.new b.lin_damping
      ang_damping := TemplateVariable.new b.ang_damping
      body_type := TemplateVariable.new b.body_type
      mass := TemplateVariable.new b.mass
      rotation_locked := TemplateVariable.new b.rotation_locked
      translation_locked := TemplateVariable.new b.translation_locked
      ccd_enabled := TemplateVariable.new b.ccd_enabled
      can_sleep := TemplateVariable.new b.can_sleep
      sleeping := b.sleeping
      native := RigidBodyHandle.invalid
      actions := [] }

/-- C1: the claim (and the source doc comment on `set_can_sleep`) says
`set_can_sleep(false)` appends a pending `WakeUp` action to the queue; the code
at the failing input shows otherwise: on the default node, `set_can_sleep
false` flips the sleep-permission property but leaves the action queue empty. -/
theorem set_can_sleep_false_enqueues_nothing :
    (RigidBody.default.set_can_sleep false).actions = [] ∧
    (RigidBody.default.set_can_sleep false).is_can_sleep = false ∧
    (RigidBody.default.set_can_sleep true).actions = [] :=
  ⟨rfl, rfl, rfl⟩

/-- C2: every physical-property setter leaves the sleeping flag unchanged,
appends nothing to the deferred action queue, and modifies only the
corresponding overridable property (stated as the full record-update
equality, which pins every other field unchanged). -/
theorem setters_touch_only_their_property (rb : RigidBody) (v : Vector2)
    (av m ld ad : F32) (bt : RigidBodyType) (b1 b2 b3 : Bool) :
    ((rb.set_lin_vel v).sleeping = rb.sleeping ∧
      (rb.set_lin_vel v).actions = rb.actions ∧
      rb.set_lin_vel v = { rb with lin_vel := rb.lin_vel.set v }) ∧
    ((rb.set_ang_vel av).sleeping = rb.sleeping ∧
      (rb.set_ang_vel av).actions = rb.actions ∧
      rb.set_ang_vel av = { rb with ang_vel := rb.ang_vel.set av }) ∧
    ((rb.set_mass m).sleeping = rb.sleeping ∧
      (rb.set_mass m).actions = rb.actions ∧
      rb.set_mass m = { rb with mass := rb.mass.set m }) ∧
    ((rb.set_lin_damping ld).sleeping = rb.sleeping ∧
      (rb.set_lin_damping ld).actions = rb.actions ∧
      rb.set_lin_damping ld =
        { rb with lin_damping := rb.lin_damping.set ld }) ∧
    ((rb.set_ang_damping ad).sleeping = rb.sleeping ∧
      (rb.set_ang_damping ad).actions = rb.actions ∧
      rb.set_ang_damping ad =
        { rb with ang_damping := rb.ang_damping.set ad }) ∧
    ((rb.lock_rotations b1).sleeping = rb.sleeping ∧
      (rb.lock_rotations b1).actions = rb.actions ∧
      rb.lock_rotations b1 =
        { rb with rotation_locked := rb.rotation_locked.set b1 }) ∧
    ((rb.lock_translation b2).sleeping = rb.sleeping ∧
      (rb.lock_translation b2).actions = rb.actions ∧
      rb.lock_translation b2 =
        { rb with translation_locked := rb.translation_locked.set b2 }) ∧
    ((rb.set_body_type bt).sleeping = rb.sleeping ∧
      (rb.set_body_type bt).actions = rb.actions ∧
      rb.set_body_type bt = { rb with body_type := rb.body_type.set bt }) ∧
    ((rb.enable_ccd b3).sleeping = rb.sleeping ∧
      (rb.enable_ccd b3).actions = rb.actions ∧
      rb.enable_ccd b3 = { rb with ccd_enabled := rb.ccd_enabled.set b3 }) := by
  repeat' apply And.intro
  all_goals rfl

/-- C3: `raw_copy` copies the ten overridable properties and the sleeping flag
exactly, resets the backend handle cell to the invalid sentinel and the
deferred action queue to empty, for every source node (regardless of how many
actions it has queued). -/
theorem raw_copy_resets_runtime_state (rb : RigidBody) :
    rb.raw_copy.lin_vel = rb.lin_vel ∧
    rb.raw_copy.ang_vel = rb.ang_vel ∧
    rb.raw_copy.lin_damping = rb.lin_damping ∧
    rb.raw_copy.ang_damping = rb.ang_damping ∧
    rb.raw_copy.body_type = rb.body_type ∧
    rb.raw_copy.mass = rb.mass ∧
    rb.raw_copy.rotation_locked = rb.rotation_locked ∧
    rb.raw_copy.translation_locked = rb.translation_locked ∧
    rb.raw_copy.ccd_enabled = rb.ccd_enabled ∧
    rb.raw_copy.can_sleep = rb.can_sleep ∧
    rb.raw_copy.sleeping = rb.sleeping ∧
    rb.raw_copy.native = RigidBodyHandle.invalid ∧
    rb.raw_copy.actions = [] := by
  repeat' apply And.intro
  all_goals rfl

/-- C4: `build_node` always yields a rigid-body node with an invalid backend
handle cell and an empty deferred action queue, and a freshly created builder
defaults to zero velocities and damping, dynamic body type, mass 1.0, locks
and CCD false, and sleep-permission true. -/
theorem builder_defaults_and_build_node (bb : BaseBuilder)
    (b : RigidBodyBuilder) :
    (∃ rb : RigidBody, b.build_node = Node.RigidBody2D rb ∧
      rb.native = RigidBodyHandle.invalid ∧ rb.actions = []) ∧
    (RigidBodyBuilder.new bb).lin_vel = ⟨0, 0⟩ ∧
    (RigidBodyBuilder.new bb).ang_vel = 0 ∧
    (RigidBodyBuilder.new bb).lin_damping = 0 ∧
    (RigidBodyBuilder.new bb).ang_damping = 0 ∧
    (RigidBodyBuilder.new bb).body_type = RigidBodyType.Dynamic ∧
    (RigidBodyBuilder.new bb).mass = 1 ∧
    (RigidBodyBuilder.new bb).rotation_locked = false ∧
    (RigidBodyBuilder.new bb).translation_locked = false ∧
    (RigidBodyBuilder.new bb).ccd_enabled = false ∧
    (RigidBodyBuilder.new bb).can_sleep = true := by
  refine ⟨⟨_, rfl, rfl, rfl⟩, ?_⟩
  repeat' apply And.intro
  all_goals rfl

/-- C5: each command operation appends exactly one deferred action of the
corresponding variant, carrying its arguments, to the tail of the queue, with
no other state change (stated as the full record-update equality); in
particular `apply_impulse (1,0)` on a fresh node leaves exactly one
`Impulse (1,0)` action queued. -/
theorem commands_append_one_action (rb : RigidBody) (f p i : Vector2)
    (t ti : F32) :
    rb.apply_force f =
      { rb with actions := rb.actions ++ [ApplyAction.Force f] } ∧
    rb.apply_torque t =
      { rb with actions := rb.actions ++ [ApplyAction.Torque t] } ∧
    rb.apply_force_at_point f p =
      { rb with actions := rb.actions ++ [ApplyAction.ForceAtPoint f p] } ∧
    rb.apply_impulse i =
      { rb with actions := rb.actions ++ [ApplyAction.Impulse i] } ∧
    rb.apply_torque_impulse ti =
      { rb with actions := rb.actions ++ [ApplyAction.TorqueImpulse ti] } ∧
    rb.apply_impulse_at_point i p =
      { rb with actions := rb.actions ++ [ApplyAction.ImpulseAtPoint i p] } ∧
    rb.wake_up = { rb with actions := rb.actions ++ [ApplyAction.WakeUp] } ∧
    (RigidBody.default.apply_impulse ⟨1, 0⟩).actions =
      [ApplyAction.Impulse ⟨1, 0⟩] := by
  repeat' apply And.intro
  all_goals rfl

/-- C6: `inherit` on a parent of the same rigid-body kind applies
`try_inherit` pairwise to all ten overridable properties; on a parent of a
different kind, all ten rigid-body overridable properties are left unchanged. -/
theorem inherit_pairwise_or_noop (rb p : RigidBody) :
    ((rb.inherit (Node.RigidBody2D p)).lin_vel =
        rb.lin_vel.try_inherit p.lin_vel ∧
      (rb.inherit (Node.RigidBody2D p)).ang_vel =
        rb.ang_vel.try_inherit p.ang_vel ∧
      (rb.inherit (Node.RigidBody2D p)).lin_damping =
        rb.lin_damping.try_inherit p.lin_damping ∧
      (rb.inherit (Node.RigidBody2D p)).ang_damping =
        rb.ang_damping.try_inherit p.ang_damping ∧
      (rb.inherit (Node.RigidBody2D p)).body_type =
        rb.body_type.try_inherit p.body_type ∧
      (rb.inherit (Node.RigidBody2D p)).mass = rb.mass.try_inherit p.mass ∧
      (rb.inherit (Node.RigidBody2D p)).rotation_locked =
        rb.rotation_locked.try_inherit p.rotation_locked ∧
      (rb.inherit (Node.RigidBody2D p)).translation_locked =
        rb.translation_locked.try_inherit p.translation_locked ∧
      (rb.inherit (Node.RigidBody2D p)).ccd_enabled =
        rb.ccd_enabled.try_inherit p.ccd_enabled ∧
      (rb.inherit (Node.RigidBody2D p)).can_sleep =
        rb.can_sleep.try_inherit p.can_sleep) ∧
    ((rb.inherit Node.Other).lin_vel = rb.lin_vel ∧
      (rb.inherit Node.Other).ang_vel = rb.ang_vel ∧
      (rb.inherit Node.Other).lin_damping = rb.lin_damping ∧
      (rb.inherit Node.Other).ang_damping = rb.ang_damping ∧
      (rb.inherit Node.Other).body_type = rb.body_type ∧
      (rb.inherit Node.Other).mass = rb.mass ∧
      (rb.inherit Node.Other).rotation_locked = rb.rotation_locked ∧
      (rb.inherit Node.Other).translation_locked = rb.translation_locked ∧
      (rb.inherit Node.Other).ccd_enabled = rb.ccd_enabled ∧
      (rb.inherit Node.Other).can_sleep = rb.can_sleep) := by
  repeat' apply And.intro
  all_goals rfl

/-- C7: `need_sync_model` is true exactly when at least one of the ten
overridable properties reports needs-sync; in particular a fresh node, none
of whose properties have been touched, reports false. -/
theorem need_sync_model_iff_some_property (rb : RigidBody) :
    (rb.need_sync_model = true ↔
      rb.lin_vel.need_sync = true ∨
      rb.ang_vel.need_sync = true ∨
      rb.lin_damping.need_sync = true ∨
      rb.ang_damping.need_sync = true ∨
      rb.body_type.need_sync = true ∨
      rb.mass.need_sync = true ∨
      rb.rotation_locked.need_sync = true ∨
      rb.translation_locked.need_sync = true ∨
      rb.ccd_enabled.need_sync = true ∨
      rb.can_sleep.need_sync = true) ∧
    RigidBody.default.need_sync_model = false := by
  constructor
  · simp only [RigidBody.need_sync_model, Bool.or_eq_true, or_assoc]
  · rfl

/-- C8: property setters perform no validation: for every `f32` value `m`,
including values below the editor-inspector minimum of 0.0 declared on the
`mass` field, `set_mass m` stores exactly `m` and the getter returns it. -/
theorem set_mass_accepts_any_value (rb : RigidBody) (m : F32) :
    (rb.set_mass m).mass_get = m ∧
    mass_min_value = 0 ∧
    (RigidBody.default.set_mass (-1)).mass_get = -1 ∧
    (-1 : F32) < mass_min_value := by
  refine ⟨rfl, rfl, rfl, ?_⟩
  norm_num [mass_min_value]

/-- C10: `wake_up` leaves the sleeping flag itself unchanged — `is_sleeping`
returns the same value right after the call — and only appends a `WakeUp`
action to the tail of the deferred action queue, with no other state change. -/
theorem wake_up_preserves_sleeping (rb : RigidBody) :
    rb.wake_up.is_sleeping = rb.is_sleeping ∧
    rb.wake_up.sleeping = rb.sleeping ∧
    rb.wake_up = { rb with actions := rb.actions ++ [ApplyAction.WakeUp] } :=
  ⟨rfl, rfl, rfl⟩
